import Mathlib

/-!
Shallow embedding of `Sources/Core/Video/VideoEngine.{hpp,cpp}` of the
maxmiize frontend repository, and theorems settling the specification
claims about it.

The C++ class `maxmiize::video::VideoEngine` holds two fields
(`initialized_ : bool`, `metadata_ : VideoMetadata`) and exposes
`initialize`, `loadVideo`, `getMetadata`, `extractFrame`, `getVersion`.
All methods are embedded as pure state-passing functions; console logging
(`std::cout`/`std::cerr`) has no effect on the engine state or on any
caller-visible data, so it is not modelled.  The caller's byte buffer for
`extractFrame` is modelled as a `List Nat` passed in and returned (the C++
code never dereferences the pointer, so the returned list equals the
argument).  `int64_t`/`int` fields are modelled as `Int` (only constant
assignments occur, no overflow is possible), and the `double` field
`frameRate` as `ℚ` (the only value ever stored is the literal 30.0,
exactly representable).
-/

/-- Embeds `struct VideoMetadata` (VideoEngine.hpp lines 20-27). -/
structure VideoMetadata where
  filePath : String
  durationMs : Int
  frameRate : ℚ
  width : Int
  height : Int
  codec : String
deriving DecidableEq

/-- Embeds the private state of `class VideoEngine` (VideoEngine.hpp lines
50-53): `bool initialized_; VideoMetadata metadata_;`.  The field
`initialized` models `initialized_`. -/
structure VideoEngine where
  initialized : Bool
  metadata : VideoMetadata
deriving DecidableEq

/-- Embeds `VideoEngine::initialize` (VideoEngine.cpp lines 23-33): if
already initialized, return true and change nothing; otherwise set
`initialized_ = true` and return true.  (Named `initEngine` in this
development.) -/
def initEngine (e : VideoEngine) : Bool × VideoEngine :=
  if e.initialized then (true, e)
  else (true, { e with initialized := true })

/-- Embeds `VideoEngine::loadVideo` (VideoEngine.cpp lines 35-53): if not
initialized, return false without touching `metadata_`; otherwise store
the path and the hardcoded constants `durationMs = 0`, `frameRate = 30.0`,
`width = 1920`, `height = 1080`, `codec = "h264"` and return true. -/
def loadVideo (e : VideoEngine) (filePath : String) : Bool × VideoEngine :=
  if !e.initialized then (false, e)
  else
    (true, { e with metadata :=
      { filePath := filePath
        durationMs := 0
        frameRate := 30
        width := 1920
        height := 1080
        codec := "h264" } })

/-- Embeds `VideoEngine::getMetadata` (VideoEngine.cpp lines 55-57):
returns a copy of `metadata_`. -/
def getMetadata (e : VideoEngine) : VideoMetadata :=
  e.metadata

/-- Embeds `VideoEngine::extractFrame` (VideoEngine.cpp lines 59-70): if
not initialized, return false; otherwise return true.  The body never
writes through `buffer`, never reads `bufferSize` or `timestampMs` except
for logging, and never mutates the engine, so the returned engine and
buffer equal the arguments on every path. -/
def extractFrame (e : VideoEngine) (timestampMs : Int) (buffer : List Nat)
    (bufferSize : Nat) : Bool × VideoEngine × List Nat :=
  if !e.initialized then (false, e, buffer)
  else (true, e, buffer)

/-- Embeds `VideoEngine::getVersion` (VideoEngine.cpp lines 72-74). -/
def getVersion : String := "1.0.0"

/-- A freshly constructed engine (VideoEngine.cpp lines 14-17): the
constructor sets `initialized_ = false` and leaves `metadata_`
default-constructed (its scalar fields are indeterminate in C++, so the
initial metadata is a parameter here; `sampleMeta` is one arbitrary
choice). -/
def freshEngine (m : VideoMetadata) : VideoEngine :=
  { initialized := false, metadata := m }

/-- One arbitrary choice of indeterminate initial metadata contents. -/
def sampleMeta : VideoMetadata :=
  { filePath := "", durationMs := 0, frameRate := 30, width := 0,
    height := 0, codec := "" }

/-- A concrete fresh engine. -/
def engine0 : VideoEngine := freshEngine sampleMeta

/-- The concrete engine after a first successful `initialize`. -/
def engineInit : VideoEngine := (initEngine engine0).2

/-- The concrete engine after `initialize` and a successful
`loadVideo("/videos/sample.mp4")`. -/
def engineLoaded : VideoEngine := (loadVideo engineInit "/videos/sample.mp4").2

/-- The spec's invariant on metadata after a successful load (spec §3). -/
def metadataInvariant (m : VideoMetadata) : Prop :=
  0 ≤ m.durationMs ∧ 0 < m.frameRate ∧ 0 < m.width ∧ 0 < m.height

instance : DecidablePred metadataInvariant := fun m => by
  unfold metadataInvariant; infer_instance

/-- One call of the facade API, for reasoning about call sequences. -/
inductive EngineOp where
  | init : EngineOp
  | load : String → EngineOp
  | getMeta : EngineOp
  | extract : Int → List Nat → Nat → EngineOp
deriving DecidableEq

/-- The engine state after one API call (outputs discarded). -/
def step (e : VideoEngine) : EngineOp → VideoEngine
  | .init => (initEngine e).2
  | .load p => (loadVideo e p).2
  | .getMeta => e
  | .extract ts buf n => (extractFrame e ts buf n).2.1

/-- The engine state after a sequence of API calls. -/
def run (e : VideoEngine) : List EngineOp → VideoEngine
  | [] => e
  | op :: ops => run (step e op) ops

/-- Whether an operation is a `loadVideo` call. -/
def isLoad : EngineOp → Bool
  | .load _ => true
  | _ => false

/-- No operation changes `initialized_` from true to false. -/
theorem step_initialized (e : VideoEngine) (o : EngineOp)
    (h : e.initialized = true) : (step e o).initialized = true := by
  cases o <;> simp [step, initEngine, loadVideo, extractFrame, h]

/-- Operations other than `loadVideo` leave `metadata_` untouched. -/
theorem step_metadata (e : VideoEngine) (o : EngineOp)
    (h : isLoad o = false) : (step e o).metadata = e.metadata := by
  cases o with
  | init =>
      by_cases hi : e.initialized = true <;>
        simp [step, initEngine, hi]
  | load p => simp [isLoad] at h
  | getMeta => rfl
  | extract ts buf n =>
      by_cases hi : e.initialized = true <;>
        simp [step, extractFrame, hi]

/-- A load-free sequence of operations leaves `metadata_` untouched. -/
theorem run_metadata (e : VideoEngine) (ops : List EngineOp)
    (h : ∀ o ∈ ops, isLoad o = false) : (run e ops).metadata = e.metadata := by
  induction ops generalizing e with
  | nil => rfl
  | cons o ops ih =>
      have h0 : isLoad o = false := h o (List.mem_cons_self o ops)
      have hrest : ∀ o' ∈ ops, isLoad o' = false :=
        fun o' ho' => h o' (List.mem_cons_of_mem o ho')
      calc (run (step e o) ops).metadata
          = (step e o).metadata := ih (step e o) hrest
        _ = e.metadata := step_metadata e o h0

/-- C1: for every `timestampMs` outside `[0, durationMs)` — including
`timestampMs = -1` and `timestampMs = durationMs` — `extractFrame` on an
engine with a loaded video fails with `OutOfRange`, and every call on an
engine with no video loaded fails with `NotLoaded`.  Counterexample on the
code: the loaded video has `durationMs = 0`, yet `extractFrame(-1)` and
`extractFrame(durationMs)` both return success, and so does a call on an
initialized engine that never loaded a video: the implementation checks
only `initialized_` and has no range or loaded check at all. -/
theorem extractFrame_noRangeCheck :
    (getMetadata engineLoaded).durationMs = 0 ∧
    (extractFrame engineLoaded (-1) [] 0).1 = true ∧
    (extractFrame engineLoaded 0 [] 0).1 = true ∧
    (extractFrame engineInit 5 [] 0).1 = true := by
  decide

/-- C2: for every `timestampMs ∈ [0, durationMs)` of a loaded video and a
sufficiently large buffer, `extractFrame` succeeds and writes exactly
`width*height*bytesPerPixel` bytes.  On the code this contract is broken:
`loadVideo` hardcodes `durationMs = 0`, so no timestamp is ever in range,
and the `extractFrame` body (a TODO stub) returns success without writing
a single byte to the caller's buffer, as evaluated here on a concrete
call. -/
theorem extractFrame_noWrite :
    (getMetadata engineLoaded).durationMs = 0 ∧
    (extractFrame engineLoaded 0 (List.replicate 8 0) 8).1 = true ∧
    (extractFrame engineLoaded 0 (List.replicate 8 0) 8).2.2 =
      List.replicate 8 0 := by
  decide

/-- C3: a buffer smaller than one decoded frame must make `extractFrame`
fail with `BufferTooSmall` with no partial write.  Counterexample on the
code: with the loaded 1920x1080 video and a 10-byte buffer the call
returns success — the implementation never reads `bufferSize`, so no
buffer-size check exists. -/
theorem extractFrame_noBufferCheck :
    (getMetadata engineLoaded).width = 1920 ∧
    (getMetadata engineLoaded).height = 1080 ∧
    extractFrame engineLoaded 0 (List.replicate 10 0) 10 =
      (true, engineLoaded, List.replicate 10 0) := by
  decide

/-- C4: calling `loadVideo` before `initialize` has succeeded returns a
failure result (false, the not-initialized branch), and the engine state —
its metadata in particular — is left unchanged by the failed call. -/
theorem loadVideo_requiresInit (e : VideoEngine) (p : String)
    (h : e.initialized = false) :
    loadVideo e p = (false, e) ∧ (loadVideo e p).2.metadata = e.metadata := by
  constructor <;> simp [loadVideo, h]

/-- Witness for C4 at a concrete fresh engine and path. -/
theorem loadVideo_requiresInit_witness :
    loadVideo engine0 "/videos/a.mp4" = (false, engine0) ∧
    (loadVideo engine0 "/videos/a.mp4").2.metadata = engine0.metadata :=
  loadVideo_requiresInit engine0 "/videos/a.mp4" (by decide)

/-- C5: `initialize` is idempotent: it always returns true, it leaves the
engine initialized, on an uninitialized engine it only flips the flag, and
a second call composed after the first changes nothing. -/
theorem initEngine_idempotent (e : VideoEngine) :
    (initEngine e).1 = true ∧
    ((initEngine e).2).initialized = true ∧
    (e.initialized = false →
      initEngine e = (true, { e with initialized := true })) ∧
    initEngine (initEngine e).2 = (true, (initEngine e).2) := by
  by_cases h : e.initialized = true <;>
    simp [initEngine, h]

/-- Witness for C5 at the concrete fresh engine. -/
theorem initEngine_idempotent_witness :
    (initEngine engine0).1 = true ∧
    initEngine engine0 = (true, { engine0 with initialized := true }) ∧
    initEngine (initEngine engine0).2 = (true, (initEngine engine0).2) :=
  ⟨(initEngine_idempotent engine0).1,
   (initEngine_idempotent engine0).2.2.1 (by decide),
   (initEngine_idempotent engine0).2.2.2⟩

/-- C6: after every successful `loadVideo` the stored metadata satisfies
`durationMs ≥ 0`, `frameRate > 0`, `width > 0`, `height > 0`, and the
predicate is preserved by every subsequent load-free sequence of
operations (the metadata itself is untouched until the next load). -/
theorem loadVideo_metadataInvariant (e : VideoEngine) (p : String)
    (ops : List EngineOp)
    (hsucc : (loadVideo e p).1 = true)
    (hnoload : ∀ o ∈ ops, isLoad o = false) :
    metadataInvariant (getMetadata (loadVideo e p).2) ∧
    getMetadata (run (loadVideo e p).2 ops) =
      getMetadata (loadVideo e p).2 ∧
    metadataInvariant (getMetadata (run (loadVideo e p).2 ops)) := by
  have hi : e.initialized = true := by
    by_cases h : e.initialized = true
    · exact h
    · simp [loadVideo, h] at hsucc
  have hmeta : getMetadata (loadVideo e p).2 =
      { filePath := p, durationMs := 0, frameRate := 30, width := 1920,
        height := 1080, codec := "h264" } := by
    simp [loadVideo, getMetadata, hi]
  have hinv : metadataInvariant (getMetadata (loadVideo e p).2) := by
    rw [hmeta]; unfold metadataInvariant; norm_num
  have hrun : getMetadata (run (loadVideo e p).2 ops) =
      getMetadata (loadVideo e p).2 :=
    run_metadata (loadVideo e p).2 ops hnoload
  exact ⟨hinv, hrun, hrun ▸ hinv⟩

/-- Witness for C6 at a concrete load followed by a load-free sequence. -/
theorem loadVideo_metadataInvariant_witness :
    metadataInvariant
      (getMetadata (loadVideo engineInit "/videos/sample.mp4").2) ∧
    getMetadata (run (loadVideo engineInit "/videos/sample.mp4").2
        [EngineOp.init, EngineOp.getMeta, EngineOp.extract 0 [] 0]) =
      getMetadata (loadVideo engineInit "/videos/sample.mp4").2 ∧
    metadataInvariant
      (getMetadata (run (loadVideo engineInit "/videos/sample.mp4").2
        [EngineOp.init, EngineOp.getMeta, EngineOp.extract 0 [] 0])) :=
  loadVideo_metadataInvariant engineInit "/videos/sample.mp4"
    [EngineOp.init, EngineOp.getMeta, EngineOp.extract 0 [] 0]
    (by decide) (by decide)

/-- C7: after `loadVideo(A); loadVideo(B)` on an initialized engine (both
succeed), the metadata equals what a single `loadVideo(B)` on any fresh
initialized engine produces: every field reflects only B, nothing is
carried over from A. -/
theorem loadVideo_noCrossContamination (e e' : VideoEngine) (a b : String)
    (h : e.initialized = true) (h' : e'.initialized = true) :
    (loadVideo e a).1 = true ∧
    (loadVideo (loadVideo e a).2 b).1 = true ∧
    getMetadata (loadVideo (loadVideo e a).2 b).2 =
      getMetadata (loadVideo e' b).2 := by
  refine ⟨by simp [loadVideo, h], ?_, ?_⟩ <;>
    simp [loadVideo, getMetadata, h, h']

/-- Witness for C7 at concrete engines and paths. -/
theorem loadVideo_noCrossContamination_witness :
    (loadVideo engineInit "/videos/a.mp4").1 = true ∧
    (loadVideo (loadVideo engineInit "/videos/a.mp4").2 "/videos/b.mp4").1
      = true ∧
    getMetadata
        (loadVideo (loadVideo engineInit "/videos/a.mp4").2
          "/videos/b.mp4").2 =
      getMetadata (loadVideo engineInit "/videos/b.mp4").2 :=
  loadVideo_noCrossContamination engineInit engineInit "/videos/a.mp4"
    "/videos/b.mp4" (by decide) (by decide)

/-- C8: on an initialized engine `loadVideo` returns true for every path
and stores the same constants regardless of the path's content or
existence: `durationMs = 0`, `frameRate = 30.0`, `width = 1920`,
`height = 1080`, `codec = "h264"`, with `filePath` equal to the given
path; it can never fail with `OpenFailed` or `UnsupportedFormat`. -/
theorem loadVideo_hardcodedMetadata (e : VideoEngine) (p : String)
    (h : e.initialized = true) :
    loadVideo e p =
      (true, { e with metadata :=
        { filePath := p, durationMs := 0, frameRate := 30, width := 1920,
          height := 1080, codec := "h264" } }) := by
  simp [loadVideo, h]

/-- Witness for C8 at a concrete engine and a path that names no real
file. -/
theorem loadVideo_hardcodedMetadata_witness :
    loadVideo engineInit "/no/such/file.bin" =
      (true, { engineInit with metadata :=
        { filePath := "/no/such/file.bin", durationMs := 0, frameRate := 30,
          width := 1920, height := 1080, codec := "h264" } }) :=
  loadVideo_hardcodedMetadata engineInit "/no/such/file.bin" (by decide)

/-- C9: on every input, `extractFrame` returns the caller's buffer and the
engine state (the `initialized_` flag and every metadata field) unchanged;
its boolean return value is the only observable effect on the modelled
state. -/
theorem extractFrame_pure (e : VideoEngine) (ts : Int) (buf : List Nat)
    (n : Nat) :
    extractFrame e ts buf n = ((extractFrame e ts buf n).1, e, buf) := by
  by_cases h : e.initialized = true <;>
    simp [extractFrame, h]

/-- C10: once `initialize` has succeeded the engine never becomes
uninitialized again: along every sequence of API calls starting from an
initialized engine, the `initialized_` flag stays true. -/
theorem run_initializedPersistent (e : VideoEngine) (ops : List EngineOp)
    (h : e.initialized = true) : (run e ops).initialized = true := by
  induction ops generalizing e with
  | nil => exact h
  | cons o ops ih => exact ih (step e o) (step_initialized e o h)

/-- Witness for C10 along a concrete sequence of calls. -/
theorem run_initializedPersistent_witness :
    (run engineInit
      [EngineOp.load "/videos/a.mp4", EngineOp.extract 3 [] 0,
        EngineOp.init, EngineOp.getMeta]).initialized = true :=
  run_initializedPersistent engineInit
    [EngineOp.load "/videos/a.mp4", EngineOp.extract 3 [] 0,
      EngineOp.init, EngineOp.getMeta] (by decide)
